import Mathlib

/-!
Verification development for the zonal-statistics core of the Peru
minimum-temperature application (`src/app.py`).

The only function with algorithmic content is `compute_zonal_stats`
(app.py lines 47-115).  It delegates per-polygon raster sampling and the
basic statistics to the external `rasterstats` library; the surrounding
table assembly, coordinate-system reconciliation and error handling are
the repository's own code and are embedded faithfully below.

Numeric values are modelled by the rationals `ℚ` (the source uses IEEE
doubles; every concrete computation appearing in the claims is exact in
both).  A pandas/geopandas data frame is modelled as an ordered list of
column names together with a list of rows of cells, plus the geodata
metadata (declared CRS and the name of the active geometry column).
-/

/-- A polygon geometry.  `rect x0 y0 x1 y1` is an axis-aligned rectangle
(used for concrete scenarios); `named` is an opaque geometry used to key
abstract sampling environments in counterexamples. -/
inductive Geom where
  | rect (x0 y0 x1 y1 : ℚ)
  | named (tag : String)
deriving DecidableEq

/-- Whether the point `(x, y)` lies strictly inside the geometry
(the interior; boundary points are not inside). -/
def Geom.interiorContains : Geom → ℚ → ℚ → Bool
  | .rect x0 y0 x1 y1, x, y =>
      decide (x0 < x) && decide (x < x1) && decide (y0 < y) && decide (y < y1)
  | .named _, _, _ => false

/-- Whether the closed unit grid cell with corner `(c, r)` meets the closed
geometry (the `all_touched=True` inclusion rule of the sampling library). -/
def Geom.touchesCell : Geom → ℕ → ℕ → Bool
  | .rect x0 y0 x1 y1, r, c =>
      decide (x0 ≤ (c : ℚ) + 1) && decide ((c : ℚ) ≤ x1) &&
      decide (y0 ≤ (r : ℚ) + 1) && decide ((r : ℚ) ≤ y1)
  | .named _, _, _ => false

/-- Modelled from the spec (§3 Raster Surface): a 2D grid of numeric cell
values with an optional no-data sentinel.  Cell `(r, c)` occupies the unit
square with corners `(c, r)` and `(c+1, r+1)`, so its center is
`(c + 1/2, r + 1/2)` (identity transform; the transform itself is handled
by the external raster reader and is irrelevant to the claims). -/
structure RasterSurface where
  grid : List (List ℚ)
  nodata : Option ℚ
deriving DecidableEq

/-- The x coordinate of the center of grid column `c`. -/
def cellCenterX (c : ℕ) : ℚ := (c : ℚ) + 1/2

/-- The y coordinate of the center of grid row `r`. -/
def cellCenterY (r : ℕ) : ℚ := (r : ℚ) + 1/2

/-- Whether a raster value is kept: values equal to the no-data sentinel are
excluded (non-finite values cannot arise in the rational model). -/
def keepValue (nodata : Option ℚ) (v : ℚ) : Bool :=
  match nodata with
  | some nd => decide (v ≠ nd)
  | none => true

/-- Whether grid cell `(r, c)` is included for geometry `g` under the given
boundary policy: with `allTouched = true` a cell merely touched by the
geometry is included, with `allTouched = false` only a cell whose center
lies inside the geometry is. -/
def includeCell (allTouched : Bool) (g : Geom) (r c : ℕ) : Bool :=
  if allTouched then g.touchesCell r c
  else g.interiorContains (cellCenterX c) (cellCenterY r)

/-- Modelled from the spec (§4.1 Raster Sampler): the grid indices of the
cells sampled for a geometry — cells satisfying the boundary-inclusion
policy whose value is not the no-data sentinel. -/
def sampledCells (allTouched : Bool) (ras : RasterSurface) (g : Geom) : List (ℕ × ℕ) :=
  ras.grid.enum.flatMap (fun rrow =>
    rrow.2.enum.filterMap (fun cv =>
      if includeCell allTouched g rrow.1 cv.1 && keepValue ras.nodata cv.2
      then some (rrow.1, cv.1) else none))

/-- Modelled from the spec (§4.1 Raster Sampler): the sequence of valid
values sampled for a geometry, in row-major grid order. -/
def gridSample (allTouched : Bool) (ras : RasterSurface) (g : Geom) : List ℚ :=
  ras.grid.enum.flatMap (fun rrow =>
    rrow.2.enum.filterMap (fun cv =>
      if includeCell allTouched g rrow.1 cv.1 && keepValue ras.nodata cv.2
      then some cv.2 else none))

/-- The boundary-inclusion argument the source passes to the sampling
library: `all_touched=False` (app.py line 79). -/
def allTouchedArg : Bool := false

/-- The statistics record the sampling library returns for one polygon
(`stats=min,max,mean,count,std`, `percentiles=10,90`, plus the
`frost_pixels` extra statistic of app.py line 76).  Statistics that are
undefined when no cell was sampled are `Option`-valued. -/
structure ZonalRow where
  count : ℕ
  min : Option ℚ
  max : Option ℚ
  mean : Option ℚ
  std : Option ℚ
  percentile_10 : Option ℚ
  percentile_90 : Option ℚ
  frost_pixels : ℕ
deriving DecidableEq

/-- The frost statistic of app.py line 76:
`lambda arr: int(np.sum(np.array(arr) < 0))` applied to the sequence of
valid sampled values — the number of values strictly below zero. -/
def frostCount (vals : List ℚ) : ℕ :=
  (vals.filter (fun v => decide (v < 0))).length

/-- The floor of a rational number (explicit floor division of the
numerator by the positive denominator). -/
def ratFloor (q : ℚ) : ℤ := Int.fdiv q.num q.den

/-- The ceiling of a rational number. -/
def ratCeil (q : ℚ) : ℤ := -Int.fdiv (-q.num) q.den

/-- Modelled from the spec (§4.2, glossary): the linear-interpolation
percentile of a value list; `none` on the empty list. -/
def percentileLinear (vals : List ℚ) (p : ℚ) : Option ℚ :=
  if vals.isEmpty then none
  else
    let s := vals.insertionSort (· ≤ ·)
    let h : ℚ := ((s.length : ℚ) - 1) * p / 100
    let lo : ℕ := (ratFloor h).toNat
    let hi : ℕ := (ratCeil h).toNat
    let a := s.getD lo 0
    let b := s.getD hi 0
    some (a + (h - (lo : ℚ)) * (b - a))

/-- Modelled from the spec (§4.2 Zonal Aggregator) and the sampling
library's contract: the statistics of one polygon's valid sampled values.
All continuous statistics are `none` when no cell was sampled.  The `std`
field holds the population variance; the source's `std` is its square
root, which has the same definedness and sign (no claim depends on the
magnitude of `std`). -/
def aggregate (vals : List ℚ) : ZonalRow :=
  { count := vals.length
  , min := vals.min?
  , max := vals.max?
  , mean := if vals.isEmpty then none
            else some (vals.sum / (vals.length : ℚ))
  , std := if vals.isEmpty then none
           else
             let m := vals.sum / (vals.length : ℚ)
             some ((vals.map (fun v => (v - m) ^ 2)).sum / (vals.length : ℚ))
  , percentile_10 := percentileLinear vals 10
  , percentile_90 := percentileLinear vals 90
  , frost_pixels := frostCount vals }

/-- One cell of a data frame: a number, a string attribute, a geometry, or
the missing-value marker (NaN / None in the source). -/
inductive Cell where
  | num (q : ℚ)
  | str (s : String)
  | geom (g : Geom)
  | na
deriving DecidableEq

/-- A (Geo)DataFrame: ordered column names, rows of cells, the declared
coordinate reference system of the active geometry, and the name of the
active geometry column. -/
structure GeoFrame where
  crs : Option String
  geomCol : String
  cols : List String
  rows : List (List Cell)
deriving DecidableEq

/-- Well-formedness of a frame: every row has one cell per column. -/
def GeoFrame.WF (f : GeoFrame) : Prop :=
  ∀ r ∈ f.rows, r.length = f.cols.length

/-- The cell at row `i`, column index `j` (as an `Option`). -/
def cellAt (f : GeoFrame) (i j : ℕ) : Option Cell :=
  f.rows[i]?.bind (fun r => r[j]?)

/-- The cells of the first column named `name`, or a constant column of the
default cell when no column has that name (models `df.get(name, default)`
and `df[name]` on a frame where `name` occurs at most once). -/
def colCellsD (f : GeoFrame) (name : String) (d : Cell) : List Cell :=
  if name ∈ f.cols then
    f.rows.map (fun r => r.getD (f.cols.findIdx (fun c => c == name)) Cell.na)
  else
    f.rows.map (fun _ => d)

/-- Column assignment `df[name] = v` (pandas `__setitem__`): if a column of
that name exists, the values of every column of that name are replaced in
place (positions and names unchanged); otherwise a new column is appended
at the end. -/
def setColFrame (f : GeoFrame) (name : String) (v : List Cell) : GeoFrame :=
  if name ∈ f.cols then
    { f with rows := (f.rows.zip v).map (fun rv =>
        List.zipWith (fun cn old => if cn = name then rv.2 else old) f.cols rv.1) }
  else
    { f with cols := f.cols ++ [name]
           , rows := (f.rows.zip v).map (fun rv => rv.1 ++ [rv.2]) }

/-- Column-wise concatenation `pd.concat([a, b], axis=1)` of two frames
with identical default range indexes (as in the source, where both sides
have one row per polygon); metadata is taken from the left frame. -/
def concatCols (a b : GeoFrame) : GeoFrame :=
  { crs := a.crs
  , geomCol := a.geomCol
  , cols := a.cols ++ b.cols
  , rows := List.zipWith (fun r s => r ++ s) a.rows b.rows }

/-- Whether a cell holds a geometry (approximates the source's test
`gdf[c].dtype.name == "geometry"`). -/
def isGeomCell : Cell → Bool
  | .geom _ => true
  | _ => false

/-- Whether column index `j` of `f` is a geometry-typed column: the frame
is non-empty and every cell of the column is a geometry. -/
def isGeomColumn (f : GeoFrame) (j : ℕ) : Bool :=
  !f.rows.isEmpty && f.rows.all (fun r => isGeomCell (r.getD j Cell.na))

/-- Embeds `ensure_geometry_column` (app.py lines 29-35): if no column is
named `geometry`, the first geometry-typed column becomes the active
geometry (GeoPandas `set_geometry` does not rename the column, so names
and cells are unchanged). -/
def ensure_geometry_column (f : GeoFrame) : GeoFrame :=
  if "geometry" ∈ f.cols then f
  else
    match (List.range f.cols.length).find? (fun j => isGeomColumn f j) with
    | some j => { f with geomCol := f.cols.getD j f.geomCol }
    | none => f

/-- The external collaborators of `compute_zonal_stats`: the raster's CRS
(read at app.py lines 50-52), per-geometry reprojection (the library under
`gdf.to_crs`, `none` = the library raises), and per-geometry sampling of
the raster at `raster_path` (the library under `zonal_stats`, returning
the valid sampled values; `none` = the library raises for that
geometry). -/
structure Env where
  rasterCrs : Option String
  reprojectGeom : Geom → String → Option Geom
  sample : Geom → Option (List ℚ)

/-- Embeds lines 58-59: a vector layer with no declared CRS is assigned
EPSG:4326 before any reprojection. -/
def withDefaultCrs (f : GeoFrame) : GeoFrame :=
  if f.crs = none then { f with crs := some "EPSG:4326" } else f

/-- Reprojection of one cell of the active geometry column; a non-geometry
cell makes the library raise (`none`). -/
def cellReproject (env : Env) (c : Cell) (rc : String) : Option Cell :=
  match c with
  | .geom g => (env.reprojectGeom g rc).map Cell.geom
  | _ => none

/-- Reprojection of one row: only cells under the active geometry column's
name are transformed; any failure fails the whole row. -/
def reprojectRow (env : Env) (cols : List String) (gname rc : String)
    (row : List Cell) : Option (List Cell) :=
  (cols.zip row).mapM (fun p =>
    if p.1 = gname then cellReproject env p.2 rc else some p.2)

/-- Embeds `gdf.to_crs(raster_crs)` (app.py line 62): reprojects the active
geometry column of the whole layer into the target CRS; `none` models the
call raising (a layer without CRS, a bad cell, or a library failure). -/
def to_crs (env : Env) (f : GeoFrame) (rc : String) : Option GeoFrame :=
  if f.crs = none then none
  else
    (f.rows.mapM (fun r => reprojectRow env f.cols f.geomCol rc r)).map
      (fun rows => { f with crs := some rc, rows := rows })

/-- Embeds the CRS reconciliation of app.py lines 57-64: default the
layer's CRS to EPSG:4326 when absent, then, when the raster has a CRS,
try to reproject onto it; a reprojection failure is swallowed
(`except Exception: pass`) and the unmodified layer is used. -/
def reconcile (env : Env) (f : GeoFrame) : GeoFrame :=
  let f := withDefaultCrs f
  match env.rasterCrs with
  | none => f
  | some rc => (to_crs env f rc).getD f

/-- The layer actually passed to the sampling call: the input after
`copy()` (line 54), `ensure_geometry_column` (line 55) and CRS
reconciliation (lines 57-64). -/
def prepared (env : Env) (vector_gdf : GeoFrame) : GeoFrame :=
  reconcile env (ensure_geometry_column vector_gdf)

/-- Sampling of one cell of the geometry column; the library raises on a
non-geometry entry. -/
def sampleCell (env : Env) : Cell → Option (List ℚ)
  | .geom g => env.sample g
  | _ => none

/-- The external `zonal_stats` call of app.py lines 71-80: one statistics
record per geometry, in input order; the library has no per-geometry
recovery, so a sampling failure for any geometry surfaces as a failure of
the whole call. -/
def zonal_stats (env : Env) (geoms : List Cell) : Option (List ZonalRow) :=
  (geoms.mapM (sampleCell env)).map (fun vss => vss.map aggregate)

/-- The column names of `pd.DataFrame(zs)` (app.py line 84), in the key
order the sampling library builds its per-feature dictionaries. -/
def statColNames : List String :=
  ["min", "max", "mean", "count", "std", "percentile_10", "percentile_90", "frost_pixels"]

/-- A statistics record as one data-frame row (undefined statistics become
the missing-value marker, counts are numeric). -/
def rowOfZonal (z : ZonalRow) : List Cell :=
  [ (z.min).elim Cell.na Cell.num
  , (z.max).elim Cell.na Cell.num
  , (z.mean).elim Cell.na Cell.num
  , Cell.num (z.count : ℚ)
  , (z.std).elim Cell.na Cell.num
  , (z.percentile_10).elim Cell.na Cell.num
  , (z.percentile_90).elim Cell.na Cell.num
  , Cell.num (z.frost_pixels : ℚ) ]

/-- Embeds app.py lines 84-94: the statistics frame of the library output,
with the percentile columns copied to `p10` / `p90` (the originals are
kept; the `elif` branches for columns named `10` / `90` are embedded as in
the source although the library always uses `percentile_10` /
`percentile_90`). -/
def dfOfStats (zs : List ZonalRow) : GeoFrame :=
  let df : GeoFrame :=
    { crs := none, geomCol := "geometry", cols := statColNames, rows := zs.map rowOfZonal }
  let df :=
    if "percentile_10" ∈ df.cols then setColFrame df "p10" (colCellsD df "percentile_10" Cell.na)
    else if "10" ∈ df.cols then setColFrame df "p10" (colCellsD df "10" Cell.na)
    else df
  let df :=
    if "percentile_90" ∈ df.cols then setColFrame df "p90" (colCellsD df "percentile_90" Cell.na)
    else if "90" ∈ df.cols then setColFrame df "p90" (colCellsD df "90" Cell.na)
    else df
  df

/-- Embeds app.py line 111 per row:
`np.where(pixels > 0, frost_pixels / pixels * 100, 0.0)` — the frost
percentage from the pixel-count cell and the frost-count cell.  A
missing or non-positive count yields `0.0` (NaN compares false). -/
def frostPctCell (pc fc : Cell) : Cell :=
  match pc with
  | .num p =>
      if 0 < p then
        match fc with
        | .num f => Cell.num (f / p * 100)
        | _ => Cell.na
      else Cell.num 0
  | _ => Cell.num 0

/-- Embeds app.py lines 96-115: merge the (possibly reprojected) polygon
layer with the statistics frame by column concatenation, apply the
`FROST_PIXELS` fallback (lines 104-106; its condition is never true since
the statistics always carry `frost_pixels`), derive `pixels`,
`frost_pixels` and `frost_pct` (lines 108-111), and rebuild a GeoDataFrame
on the column named `geometry` (line 115).  The `rename_map` of lines
100-103 is built by the source but never applied, so it has no effect and
is not modelled.  Error branches embed the uncaught pandas exceptions:
reading a duplicated column name yields a DataFrame whose assignment to a
single column raises, and the final constructor raises when no column is
named `geometry`.  The second component of the result collects the
warnings recorded during the call; `compute_zonal_stats` (lines 47-115)
contains no warning-recording statement, so every path records none. -/
def assemble (gdf : GeoFrame) (zs : List ZonalRow) :
    Except String (GeoFrame × List String) :=
  let out := concatCols gdf (dfOfStats zs)
  let out :=
    if "frost_pixels" ∉ out.cols ∧ "FROST_PIXELS" ∈ out.cols
    then setColFrame out "frost_pixels" (colCellsD out "FROST_PIXELS" Cell.na)
    else out
  if 2 ≤ out.cols.count "count" then
    Except.error "ValueError: cannot assign a DataFrame to column pixels"
  else
    let out := setColFrame out "pixels" (colCellsD out "count" Cell.na)
    if 2 ≤ out.cols.count "frost_pixels" then
      Except.error "ValueError: cannot assign a DataFrame to column frost_pixels"
    else
      let out := setColFrame out "frost_pixels" (colCellsD out "frost_pixels" (Cell.num 0))
      let out := setColFrame out "frost_pct"
        (List.zipWith frostPctCell (colCellsD out "pixels" Cell.na)
          (colCellsD out "frost_pixels" Cell.na))
      if "geometry" ∈ out.cols then
        Except.ok ({ out with geomCol := "geometry" }, [])
      else Except.error "KeyError: geometry"

/-- Embeds `compute_zonal_stats` (app.py lines 47-115).  `Except.error`
models the function raising (the `RuntimeError` of line 82, or an uncaught
pandas exception during assembly); on success the result is the assembled
GeoDataFrame together with the list of warnings recorded during the call
(always empty — the source records none). -/
def compute_zonal_stats (env : Env) (vector_gdf : GeoFrame) :
    Except String (GeoFrame × List String) :=
  let gdf := prepared env vector_gdf
  match zonal_stats env (colCellsD gdf gdf.geomCol Cell.na) with
  | none => Except.error "Error en zonal_stats"
  | some zs => assemble gdf zs

/-- The call as seen by the caller: `compute_zonal_stats` starts with
`gdf = vector_gdf.copy()` (app.py line 54) and every later statement of
the function reads or writes only that copy or frames derived from it
(`set_crs`, `to_crs`, `reset_index`, `pd.concat` and the GeoDataFrame
constructor all build new objects; the in-place column assignments of
lines 106-111 target the freshly concatenated frame).  The second
component is therefore the caller's object when the call returns. -/
def compute_zonal_stats_caller (env : Env) (vector_gdf : GeoFrame) :
    Except String (GeoFrame × List String) × GeoFrame :=
  (compute_zonal_stats env vector_gdf, vector_gdf)

/-- The column names the assembly can append to the polygon layer's own
columns. -/
def computedColNames : List String :=
  statColNames ++ ["p10", "p90", "pixels", "frost_pct"]

/-! Concrete scenarios used by the claims. -/

/-- The 4×4 example raster of the spec (§8), no-data absent. -/
def exampleRaster : RasterSurface :=
  { grid := [[1, 2, 3, 4], [5, -1, -2, 8], [9, 10, 11, -3], [13, 14, 15, 16]]
  , nodata := none }

/-- An environment whose raster is `exampleRaster` in CRS EPSG:32718, with
reprojection acting as the identity (the layer already matches) and
sampling by the center-inside grid sampler. -/
def exampleEnv : Env :=
  { rasterCrs := some "EPSG:32718"
  , reprojectGeom := fun g _ => some g
  , sample := fun g => some (gridSample allTouchedArg exampleRaster g) }

/-- A one-polygon layer covering the full 4×4 grid, already in the
raster's CRS. -/
def exampleGdf : GeoFrame :=
  { crs := some "EPSG:32718"
  , geomCol := "geometry"
  , cols := ["geometry"]
  , rows := [[Cell.geom (Geom.rect 0 0 4 4)]] }

/-- An environment where sampling fails for the geometry tagged `bad` and
succeeds for every other geometry (no raster CRS, so no reprojection). -/
def failEnv : Env :=
  { rasterCrs := none
  , reprojectGeom := fun g _ => some g
  , sample := fun g => if g = Geom.named "bad" then none else some [1] }

/-- A two-polygon layer whose second geometry makes sampling fail. -/
def failGdf : GeoFrame :=
  { crs := some "EPSG:4326"
  , geomCol := "geometry"
  , cols := ["geometry"]
  , rows := [[Cell.geom (Geom.rect 0 0 1 1)], [Cell.geom (Geom.named "bad")]] }

/-- An environment whose reprojection always fails (models a `to_crs`
exception) while sampling succeeds. -/
def reprojFailEnv : Env :=
  { rasterCrs := some "EPSG:32718"
  , reprojectGeom := fun _ _ => none
  , sample := fun _ => some [1] }

/-- A one-polygon layer in a CRS differing from the raster's. -/
def reprojFailGdf : GeoFrame :=
  { crs := some "EPSG:4326"
  , geomCol := "geometry"
  , cols := ["geometry"]
  , rows := [[Cell.geom (Geom.rect 0 0 1 1)]] }

/-- An environment whose reprojection replaces every geometry by the unit
square (a visibly different geometry) and whose sampling succeeds. -/
def reprojChangeEnv : Env :=
  { rasterCrs := some "EPSG:32718"
  , reprojectGeom := fun _ _ => some (Geom.rect 0 0 1 1)
  , sample := fun _ => some [1, 2] }

/-- A one-polygon layer with an attribute column, in a CRS differing from
the raster's, whose geometry is far from the unit square. -/
def attrGdf : GeoFrame :=
  { crs := some "EPSG:4326"
  , geomCol := "geometry"
  , cols := ["NOMBRE", "geometry"]
  , rows := [[Cell.str "LIMA", Cell.geom (Geom.rect 10 10 20 20)]] }

/-- A one-polygon layer that already contains a column named `mean`. -/
def collideGdf : GeoFrame :=
  { crs := some "EPSG:32718"
  , geomCol := "geometry"
  , cols := ["DISTRITO", "mean", "geometry"]
  , rows := [[Cell.str "LIMA", Cell.num 5, Cell.geom (Geom.rect 0 0 4 4)]] }

/-- A one-polygon layer with an upper-case attribute column. -/
def upperGdf : GeoFrame :=
  { crs := some "EPSG:32718"
  , geomCol := "geometry"
  , cols := ["DISTRITO", "geometry"]
  , rows := [[Cell.str "LIMA", Cell.geom (Geom.rect 0 0 4 4)]] }

/-- A layer with no declared coordinate reference system. -/
def noCrsGdf : GeoFrame :=
  { crs := none
  , geomCol := "geometry"
  , cols := ["geometry"]
  , rows := [] }

/-- A well-formed layer with geometry column and no polygon rows. -/
def emptyGdf : GeoFrame :=
  { crs := some "EPSG:4326"
  , geomCol := "geometry"
  , cols := ["geometry"]
  , rows := [] }

/-- A one-polygon layer with one attribute column, used as a witness
input. -/
def oneRowGdf : GeoFrame :=
  { crs := some "EPSG:4326"
  , geomCol := "geometry"
  , cols := ["NOMBRE", "geometry"]
  , rows := [[Cell.str "X", Cell.geom (Geom.rect 0 0 1 1)]] }

/-- Whether a string contains no ASCII upper-case letter — the sense in
which a column name is already lowercase. -/
def isLowerStr (s : String) : Bool :=
  s.data.all (fun c => !(65 ≤ c.val && c.val ≤ 90))

/-- The warnings component of a call result (empty when the call raised). -/
def warningsOf (r : Except String (GeoFrame × List String)) : List String :=
  match r with
  | .ok p => p.2
  | .error _ => []

/-- The statistics frame before the percentile-name normalization. -/
def statsBase (zs : List ZonalRow) : GeoFrame :=
  { crs := none, geomCol := "geometry", cols := statColNames, rows := zs.map rowOfZonal }

/-- The result frame of the zonal computation on `emptyGdf` under `failEnv`
(no polygons, so no statistic rows). -/
def emptyOut : GeoFrame :=
  { crs := some "EPSG:4326"
  , geomCol := "geometry"
  , cols := ["geometry", "min", "max", "mean", "count", "std", "percentile_10",
             "percentile_90", "frost_pixels", "p10", "p90", "pixels", "frost_pct"]
  , rows := [] }

/-- The result frame of the zonal computation on `oneRowGdf` under `failEnv`
(a single polygon whose sampled values are `[1]`). -/
def oneRowOut : GeoFrame :=
  { crs := some "EPSG:4326"
  , geomCol := "geometry"
  , cols := ["NOMBRE", "geometry", "min", "max", "mean", "count", "std", "percentile_10",
             "percentile_90", "frost_pixels", "p10", "p90", "pixels", "frost_pct"]
  , rows := [[Cell.str "X", Cell.geom (Geom.rect 0 0 1 1), Cell.num 1, Cell.num 1,
              Cell.num 1, Cell.num 1, Cell.num 0, Cell.num 1, Cell.num 1, Cell.num 0,
              Cell.num 1, Cell.num 1, Cell.num 1, Cell.num 0]] }

/-! List-level helper lemmas. -/

theorem zipWith_getq (f : α → β → γ) :
    ∀ (l : List α) (m : List β) (j : ℕ),
      (List.zipWith f l m)[j]? = l[j]?.bind (fun a => m[j]?.map (f a)) := by
  intro l
  induction l with
  | nil => intro m j; simp
  | cons a l ih =>
    intro m j
    cases m with
    | nil => simp
    | cons b m =>
      cases j with
      | zero => simp
      | succ j => simpa using ih m j

theorem zip_getq (l : List α) (m : List β) (j : ℕ) :
    (l.zip m)[j]? = l[j]?.bind (fun a => m[j]?.map (Prod.mk a)) := by
  simpa [List.zip] using zipWith_getq Prod.mk l m j

theorem mapM_length_option (f : α → Option β) :
    ∀ (l : List α) (out : List β), l.mapM f = some out → out.length = l.length := by
  intro l
  induction l with
  | nil => intro out h; simp only [List.mapM_nil, pure, Option.some_inj] at h; simp [← h]
  | cons a l ih =>
    intro out h
    simp only [List.mapM_cons] at h
    cases hfa : f a with
    | none => rw [hfa] at h; simp [bind, Option.bind] at h
    | some b =>
      rw [hfa] at h
      cases hml : l.mapM f with
      | none => rw [hml] at h; simp [bind, Option.bind] at h
      | some bs =>
        rw [hml] at h
        simp only [bind, Option.bind, pure, Option.some_inj] at h
        subst h
        simp [ih bs hml]

theorem mapM_getq_option (f : α → Option β) :
    ∀ (l : List α) (out : List β), l.mapM f = some out →
      ∀ j : ℕ, out[j]? = l[j]?.bind f := by
  intro l
  induction l with
  | nil =>
    intro out h j
    simp only [List.mapM_nil, pure, Option.some_inj] at h
    simp [← h]
  | cons a l ih =>
    intro out h j
    simp only [List.mapM_cons] at h
    cases hfa : f a with
    | none => rw [hfa] at h; simp [bind, Option.bind] at h
    | some b =>
      rw [hfa] at h
      cases hml : l.mapM f with
      | none => rw [hml] at h; simp [bind, Option.bind] at h
      | some bs =>
        rw [hml] at h
        simp only [bind, Option.bind, pure, Option.some_inj] at h
        subst h
        cases j with
        | zero => simp [hfa]
        | succ j => simpa using ih bs hml j

theorem mapM_none_of_mem (f : α → Option β) :
    ∀ (l : List α), (∃ a ∈ l, f a = none) → l.mapM f = none := by
  intro l
  induction l with
  | nil => rintro ⟨a, ha, _⟩; simp at ha
  | cons b l ih =>
    rintro ⟨a, ha, hfa⟩
    simp only [List.mapM_cons]
    rcases List.mem_cons.mp ha with h | h
    · subst h; rw [hfa]; rfl
    · cases hfb : f b with
      | none => rfl
      | some c =>
        rw [ih ⟨a, h, hfa⟩]
        rfl

/-! Frame-level helper lemmas. -/

theorem setColFrame_cols_of_mem (f : GeoFrame) (name : String) (v : List Cell)
    (h : name ∈ f.cols) : (setColFrame f name v).cols = f.cols := by
  simp [setColFrame, h]

theorem setColFrame_cols_of_notMem (f : GeoFrame) (name : String) (v : List Cell)
    (h : name ∉ f.cols) : (setColFrame f name v).cols = f.cols ++ [name] := by
  simp [setColFrame, h]

theorem setColFrame_crs (f : GeoFrame) (name : String) (v : List Cell) :
    (setColFrame f name v).crs = f.crs := by
  unfold setColFrame; split <;> rfl

theorem setColFrame_rows_length (f : GeoFrame) (name : String) (v : List Cell)
    (hv : v.length = f.rows.length) :
    (setColFrame f name v).rows.length = f.rows.length := by
  unfold setColFrame
  split <;> simp [List.length_zip, hv]

theorem colCellsD_length (f : GeoFrame) (name : String) (d : Cell) :
    (colCellsD f name d).length = f.rows.length := by
  unfold colCellsD
  split <;> simp

theorem cellAt_setColFrame (f : GeoFrame) (name : String) (v : List Cell)
    (hwf : f.WF) (hv : v.length = f.rows.length) (i j : ℕ) (cn : String)
    (hj : f.cols[j]? = some cn) (hne : cn ≠ name) :
    cellAt (setColFrame f name v) i j = cellAt f i j := by
  have hvi : ∀ r, f.rows[i]? = some r → ∃ c, v[i]? = some c := by
    intro r hr
    obtain ⟨hlt, _⟩ := List.getElem?_eq_some.mp hr
    cases hcase : v[i]? with
    | none =>
      have := List.getElem?_eq_none_iff.mp hcase
      omega
    | some c => exact ⟨c, rfl⟩
  unfold setColFrame cellAt
  by_cases hmem : name ∈ f.cols
  · simp only [hmem, if_true, List.getElem?_map, zip_getq]
    cases hri : f.rows[i]? with
    | none => simp
    | some r =>
      obtain ⟨c, hc⟩ := hvi r hri
      simp only [hc, Option.map_some', Option.some_bind, Option.map_map]
      rw [zipWith_getq, hj]
      simp only [Option.some_bind]
      cases hrj : r[j]? with
      | none => simp
      | some old => simp [hne]
  · simp only [hmem, if_false, List.getElem?_map, zip_getq]
    cases hri : f.rows[i]? with
    | none => simp
    | some r =>
      obtain ⟨c, hc⟩ := hvi r hri
      simp only [hc, Option.map_some', Option.some_bind]
      have hrlen : r.length = f.cols.length := hwf r (List.getElem?_mem hri)
      obtain ⟨hjlt, _⟩ := List.getElem?_eq_some.mp hj
      rw [List.getElem?_append_left (by omega)]

theorem WF_setColFrame (f : GeoFrame) (name : String) (v : List Cell)
    (hwf : f.WF) : (setColFrame f name v).WF := by
  unfold setColFrame GeoFrame.WF
  by_cases hmem : name ∈ f.cols
  · simp only [hmem, if_true]
    intro r hr
    obtain ⟨⟨r0, c0⟩, hr0, rfl⟩ := List.mem_map.mp hr
    obtain ⟨hr0m, _⟩ := List.of_mem_zip hr0
    have := hwf r0 hr0m
    simp [List.length_zipWith, this]
  · simp only [hmem, if_false]
    intro r hr
    obtain ⟨⟨r0, c0⟩, hr0, rfl⟩ := List.mem_map.mp hr
    obtain ⟨hr0m, _⟩ := List.of_mem_zip hr0
    have := hwf r0 hr0m
    simp [this]

theorem setColFrame_cols_getq (f : GeoFrame) (name : String) (v : List Cell)
    (j : ℕ) (hj : j < f.cols.length) :
    (setColFrame f name v).cols[j]? = f.cols[j]? := by
  unfold setColFrame
  by_cases hmem : name ∈ f.cols
  · simp [hmem]
  · simp only [hmem, if_false]
    exact List.getElem?_append_left hj

theorem setColFrame_cols_length_le (f : GeoFrame) (name : String) (v : List Cell) :
    f.cols.length ≤ (setColFrame f name v).cols.length := by
  unfold setColFrame
  by_cases hmem : name ∈ f.cols <;> simp [hmem]

theorem setColFrame_cols_take (f : GeoFrame) (name : String) (v : List Cell)
    (k : ℕ) (hk : k ≤ f.cols.length) :
    (setColFrame f name v).cols.take k = f.cols.take k := by
  unfold setColFrame
  by_cases hmem : name ∈ f.cols
  · simp [hmem]
  · simp only [hmem, if_false]
    exact List.take_append_of_le_length hk

theorem setColFrame_cols_drop_sub (f : GeoFrame) (name : String) (v : List Cell)
    (k : ℕ) (hk : k ≤ f.cols.length)
    (hq : ∀ c ∈ f.cols.drop k, c ∈ computedColNames) (hn : name ∈ computedColNames) :
    ∀ c ∈ (setColFrame f name v).cols.drop k, c ∈ computedColNames := by
  unfold setColFrame
  by_cases hmem : name ∈ f.cols
  · simpa [hmem] using hq
  · simp only [hmem, if_false]
    rw [List.drop_append_of_le_length hk]
    intro c hc
    rcases List.mem_append.mp hc with h | h
    · exact hq c h
    · simp only [List.mem_singleton] at h
      subst h
      exact hn

theorem concatCols_rows_length (a b : GeoFrame) (h : b.rows.length = a.rows.length) :
    (concatCols a b).rows.length = a.rows.length := by
  simp [concatCols, List.length_zipWith, h]

theorem WF_concatCols (a b : GeoFrame) (ha : a.WF) (hb : b.WF) : (concatCols a b).WF := by
  unfold GeoFrame.WF
  intro r hr
  obtain ⟨i, hi⟩ := (List.mem_iff_getElem? ..).mp hr
  rw [show (concatCols a b).rows = List.zipWith (fun r s => r ++ s) a.rows b.rows from rfl,
    zipWith_getq] at hi
  cases hra : a.rows[i]? with
  | none => rw [hra] at hi; simp at hi
  | some ra =>
    rw [hra] at hi
    cases hrb : b.rows[i]? with
    | none => rw [hrb] at hi; simp at hi
    | some rb =>
      rw [hrb] at hi
      simp only [Option.some_bind, Option.map_some', Option.some_inj] at hi
      subst hi
      have h1 := ha ra (List.getElem?_mem hra)
      have h2 := hb rb (List.getElem?_mem hrb)
      simp [concatCols, h1, h2]

theorem cellAt_concatCols_left (a b : GeoFrame) (hwf : a.WF)
    (hlen : b.rows.length = a.rows.length) (i j : ℕ) (cn : String)
    (hj : a.cols[j]? = some cn) :
    cellAt (concatCols a b) i j = cellAt a i j := by
  unfold cellAt
  rw [show (concatCols a b).rows = List.zipWith (fun r s => r ++ s) a.rows b.rows from rfl,
    zipWith_getq]
  cases hra : a.rows[i]? with
  | none => simp
  | some ra =>
    have hilt : i < a.rows.length := (List.getElem?_eq_some.mp hra).1
    cases hrb : b.rows[i]? with
    | none =>
      have := List.getElem?_eq_none_iff.mp hrb
      omega
    | some rb =>
      simp only [Option.some_bind, Option.map_some', Option.some_bind]
      have hra' := hwf ra (List.getElem?_mem hra)
      obtain ⟨hjlt, _⟩ := List.getElem?_eq_some.mp hj
      exact List.getElem?_append_left (by omega)

theorem withDefaultCrs_cols (f : GeoFrame) : (withDefaultCrs f).cols = f.cols := by
  unfold withDefaultCrs; split <;> rfl

theorem withDefaultCrs_rows (f : GeoFrame) : (withDefaultCrs f).rows = f.rows := by
  unfold withDefaultCrs; split <;> rfl

theorem withDefaultCrs_geomCol (f : GeoFrame) : (withDefaultCrs f).geomCol = f.geomCol := by
  unfold withDefaultCrs; split <;> rfl

theorem withDefaultCrs_WF (f : GeoFrame) (h : f.WF) : (withDefaultCrs f).WF := by
  unfold GeoFrame.WF
  rw [withDefaultCrs_cols, withDefaultCrs_rows]
  exact h

theorem cellAt_withDefaultCrs (f : GeoFrame) (i j : ℕ) :
    cellAt (withDefaultCrs f) i j = cellAt f i j := by
  unfold cellAt
  rw [withDefaultCrs_rows]

theorem ensure_cols (f : GeoFrame) : (ensure_geometry_column f).cols = f.cols := by
  unfold ensure_geometry_column
  split
  · rfl
  · split <;> rfl

theorem ensure_rows (f : GeoFrame) : (ensure_geometry_column f).rows = f.rows := by
  unfold ensure_geometry_column
  split
  · rfl
  · split <;> rfl

theorem ensure_crs (f : GeoFrame) : (ensure_geometry_column f).crs = f.crs := by
  unfold ensure_geometry_column
  split
  · rfl
  · split <;> rfl

theorem ensure_WF (f : GeoFrame) (h : f.WF) : (ensure_geometry_column f).WF := by
  unfold GeoFrame.WF
  rw [ensure_cols, ensure_rows]
  exact h

theorem cellAt_ensure (f : GeoFrame) (i j : ℕ) :
    cellAt (ensure_geometry_column f) i j = cellAt f i j := by
  unfold cellAt
  rw [ensure_rows]

theorem to_crs_spec (env : Env) (f : GeoFrame) (rc : String) (g : GeoFrame)
    (h : to_crs env f rc = some g) :
    g.cols = f.cols ∧ g.geomCol = f.geomCol ∧ g.crs = some rc ∧
    g.rows.length = f.rows.length ∧ (f.WF → g.WF) ∧
    (∀ i j : ℕ, ∀ cn : String, f.cols[j]? = some cn → cn ≠ f.geomCol →
      cellAt g i j = cellAt f i j) := by
  unfold to_crs at h
  split at h
  · exact Option.noConfusion h
  · cases hm : f.rows.mapM (fun r => reprojectRow env f.cols f.geomCol rc r) with
    | none => rw [hm] at h; simp at h
    | some rows2 =>
      rw [hm] at h
      simp only [Option.map_some', Option.some_inj] at h
      subst h
      have hlen : rows2.length = f.rows.length := mapM_length_option _ _ _ hm
      have hrow : ∀ i : ℕ, ∀ r0 r1 : List Cell, f.rows[i]? = some r0 →
          reprojectRow env f.cols f.geomCol rc r0 = some r1 →
          r1.length = (f.cols.zip r0).length := by
        intro i r0 r1 _ hpr
        exact mapM_length_option _ _ _ hpr
      refine ⟨rfl, rfl, rfl, hlen, ?_, ?_⟩
      · intro hwf r hr
        obtain ⟨i, hi⟩ := (List.mem_iff_getElem? ..).mp hr
        rw [mapM_getq_option _ _ _ hm i] at hi
        cases hr0 : f.rows[i]? with
        | none => rw [hr0] at hi; simp at hi
        | some r0 =>
          rw [hr0] at hi
          simp only [Option.some_bind] at hi
          have := hrow i r0 r hr0 hi
          have hr0l := hwf r0 (List.getElem?_mem hr0)
          simp only [List.length_zip, hr0l, min_self] at this
          simpa using this
      · intro i j cn hj hne
        unfold cellAt
        simp only
        rw [mapM_getq_option _ _ _ hm i]
        cases hr0 : f.rows[i]? with
        | none => simp
        | some r0 =>
          simp only [Option.some_bind]
          cases hrr : reprojectRow env f.cols f.geomCol rc r0 with
          | none =>
            have hilt : i < f.rows.length := (List.getElem?_eq_some.mp hr0).1
            have : rows2[i]? = (f.rows[i]?).bind
                (fun r => reprojectRow env f.cols f.geomCol rc r) :=
              mapM_getq_option _ _ _ hm i
            rw [hr0] at this
            simp only [Option.some_bind, hrr] at this
            have := List.getElem?_eq_none_iff.mp this
            omega
          | some r1 =>
            unfold reprojectRow at hrr
            simp only [Option.some_bind]
            rw [mapM_getq_option _ _ _ hrr j, zip_getq, hj]
            simp only [Option.some_bind]
            cases hr0j : r0[j]? with
            | none => simp
            | some old => simp [hne]

theorem reconcile_spec (env : Env) (f : GeoFrame) :
    (reconcile env f).cols = f.cols ∧ (reconcile env f).geomCol = f.geomCol ∧
    (reconcile env f).rows.length = f.rows.length ∧
    (f.WF → (reconcile env f).WF) ∧
    (∀ i j : ℕ, ∀ cn : String, f.cols[j]? = some cn → cn ≠ f.geomCol →
      cellAt (reconcile env f) i j = cellAt f i j) := by
  have hdef : ∀ goal : GeoFrame → Prop, goal (withDefaultCrs f) →
      (∀ g : GeoFrame, to_crs env (withDefaultCrs f) ((env.rasterCrs).getD "") = some g →
        env.rasterCrs ≠ none → goal g) → goal (reconcile env f) := by
    intro goal hbase hstep
    unfold reconcile
    cases hrc : env.rasterCrs with
    | none => exact hbase
    | some rc =>
      cases hto : to_crs env (withDefaultCrs f) rc with
      | none => simpa [hto] using hbase
      | some g =>
        simp only [hto, Option.getD_some]
        exact hstep g (by simpa [hrc] using hto) (by simp [hrc])
  refine hdef (fun g => g.cols = f.cols ∧ g.geomCol = f.geomCol ∧
      g.rows.length = f.rows.length ∧ (f.WF → g.WF) ∧
      (∀ i j : ℕ, ∀ cn : String, f.cols[j]? = some cn → cn ≠ f.geomCol →
        cellAt g i j = cellAt f i j)) ?_ ?_
  · exact ⟨withDefaultCrs_cols f, withDefaultCrs_geomCol f, by rw [withDefaultCrs_rows],
      withDefaultCrs_WF f, fun i j cn hj hne => cellAt_withDefaultCrs f i j⟩
  · intro g hto _
    obtain ⟨h1, h2, _, h4, h5, h6⟩ := to_crs_spec env (withDefaultCrs f) _ g hto
    refine ⟨by rw [h1, withDefaultCrs_cols], by rw [h2, withDefaultCrs_geomCol],
      by rw [h4, withDefaultCrs_rows], fun hwf => h5 (withDefaultCrs_WF f hwf),
      fun i j cn hj hne => ?_⟩
    rw [h6 i j cn (by rw [withDefaultCrs_cols]; exact hj)
      (by rw [withDefaultCrs_geomCol]; exact hne), cellAt_withDefaultCrs]

theorem prepared_spec (env : Env) (f : GeoFrame) :
    (prepared env f).cols = f.cols ∧
    (prepared env f).rows.length = f.rows.length ∧
    (f.WF → (prepared env f).WF) ∧
    (∀ i j : ℕ, ∀ cn : String, f.cols[j]? = some cn →
      cn ≠ (ensure_geometry_column f).geomCol →
      cellAt (prepared env f) i j = cellAt f i j) := by
  obtain ⟨h1, _, h3, h4, h5⟩ := reconcile_spec env (ensure_geometry_column f)
  unfold prepared
  refine ⟨by rw [h1, ensure_cols], by rw [h3, ensure_rows],
    fun hwf => h4 (ensure_WF f hwf), fun i j cn hj hne => ?_⟩
  rw [h5 i j cn (by rw [ensure_cols]; exact hj) hne, cellAt_ensure]

theorem zonal_stats_length (env : Env) (geoms : List Cell) (zs : List ZonalRow)
    (h : zonal_stats env geoms = some zs) : zs.length = geoms.length := by
  unfold zonal_stats at h
  cases hm : geoms.mapM (sampleCell env) with
  | none => rw [hm] at h; simp at h
  | some vss =>
    rw [hm] at h
    simp only [Option.map_some', Option.some_inj] at h
    subst h
    simpa using mapM_length_option _ _ _ hm

theorem dfOfStats_eq (zs : List ZonalRow) :
    dfOfStats zs =
      setColFrame
        (setColFrame (statsBase zs) "p10" (colCellsD (statsBase zs) "percentile_10" Cell.na))
        "p90"
        (colCellsD
          (setColFrame (statsBase zs) "p10" (colCellsD (statsBase zs) "percentile_10" Cell.na))
          "percentile_90" Cell.na) := rfl

theorem dfOfStats_cols (zs : List ZonalRow) :
    (dfOfStats zs).cols =
      ["min", "max", "mean", "count", "std", "percentile_10", "percentile_90",
       "frost_pixels", "p10", "p90"] := rfl

theorem dfOfStats_rows_length (zs : List ZonalRow) :
    (dfOfStats zs).rows.length = zs.length := by
  rw [dfOfStats_eq,
    setColFrame_rows_length _ _ _ (colCellsD_length ..),
    setColFrame_rows_length _ _ _ (colCellsD_length ..)]
  simp [statsBase]

theorem statsBase_WF (zs : List ZonalRow) : (statsBase zs).WF := by
  intro r hr
  obtain ⟨z, _, rfl⟩ := List.mem_map.mp hr
  rfl

theorem dfOfStats_WF (zs : List ZonalRow) : (dfOfStats zs).WF := by
  rw [dfOfStats_eq]
  exact WF_setColFrame _ _ _ (WF_setColFrame _ _ _ (statsBase_WF zs))

theorem assemble_ok (gdf : GeoFrame) (zs : List ZonalRow) (out : GeoFrame) (w : List String)
    (hwf : gdf.WF) (hlen : zs.length = gdf.rows.length)
    (h : assemble gdf zs = Except.ok (out, w)) :
    w = [] ∧
    out.cols.take gdf.cols.length = gdf.cols ∧
    (∀ c ∈ out.cols.drop gdf.cols.length, c ∈ computedColNames) ∧
    out.rows.length = gdf.rows.length ∧
    (∀ i j : ℕ, ∀ cn : String, gdf.cols[j]? = some cn →
      cn ≠ "pixels" → cn ≠ "frost_pixels" → cn ≠ "frost_pct" →
      cellAt out i j = cellAt gdf i j) := by
  simp only [assemble] at h
  set B := dfOfStats zs with hB
  set o0 := concatCols gdf B with ho0
  have hc0 : o0.cols = gdf.cols ++
      ["min", "max", "mean", "count", "std", "percentile_10", "percentile_90",
       "frost_pixels", "p10", "p90"] := by
    rw [ho0, show (concatCols gdf B).cols = gdf.cols ++ B.cols from rfl, hB, dfOfStats_cols]
  have hfpmem : "frost_pixels" ∈ o0.cols := by
    rw [hc0]; simp
  have hframe :
      (if "frost_pixels" ∉ o0.cols ∧ "FROST_PIXELS" ∈ o0.cols then
        setColFrame o0 "frost_pixels" (colCellsD o0 "FROST_PIXELS" Cell.na)
      else o0) = o0 := if_neg (fun hcon => hcon.1 hfpmem)
  rw [hframe] at h
  by_cases hd1 : 2 ≤ o0.cols.count "count"
  · rw [if_pos hd1] at h
    exact absurd h (by simp)
  · rw [if_neg hd1] at h
    set o1 := setColFrame o0 "pixels" (colCellsD o0 "count" Cell.na) with ho1
    by_cases hd2 : 2 ≤ o1.cols.count "frost_pixels"
    · rw [if_pos hd2] at h
      exact absurd h (by simp)
    · rw [if_neg hd2] at h
      set o2 := setColFrame o1 "frost_pixels" (colCellsD o1 "frost_pixels" (Cell.num 0)) with ho2
      set o3 := setColFrame o2 "frost_pct"
        (List.zipWith frostPctCell (colCellsD o2 "pixels" Cell.na)
          (colCellsD o2 "frost_pixels" Cell.na)) with ho3
      by_cases hg : "geometry" ∈ o3.cols
      · rw [if_pos hg] at h
        simp only [Except.ok.injEq, Prod.mk.injEq] at h
        obtain ⟨h4, h5⟩ := h
        subst h4
        subst h5
        have hwf0 : o0.WF := by
          rw [ho0]; exact WF_concatCols _ _ hwf (hB ▸ dfOfStats_WF zs)
        have hlen0 : o0.rows.length = gdf.rows.length := by
          rw [ho0]
          exact concatCols_rows_length _ _ (by rw [hB, dfOfStats_rows_length, hlen])
        have hwf1 : o1.WF := by rw [ho1]; exact WF_setColFrame _ _ _ hwf0
        have hlen1 : o1.rows.length = gdf.rows.length := by
          rw [ho1, setColFrame_rows_length _ _ _ (colCellsD_length ..), hlen0]
        have hwf2 : o2.WF := by rw [ho2]; exact WF_setColFrame _ _ _ hwf1
        have hlen2 : o2.rows.length = gdf.rows.length := by
          rw [ho2, setColFrame_rows_length _ _ _ (colCellsD_length ..), hlen1]
        have hv3 : (List.zipWith frostPctCell (colCellsD o2 "pixels" Cell.na)
            (colCellsD o2 "frost_pixels" Cell.na)).length = o2.rows.length := by
          rw [List.length_zipWith, colCellsD_length, colCellsD_length, min_self]
        have hlen3 : o3.rows.length = gdf.rows.length := by
          rw [ho3, setColFrame_rows_length _ _ _ hv3, hlen2]
        have hk0 : gdf.cols.length ≤ o0.cols.length := by
          rw [hc0]; simp
        have hk1 : gdf.cols.length ≤ o1.cols.length := by
          rw [ho1]
          exact le_trans hk0 (setColFrame_cols_length_le ..)
        have hk2 : gdf.cols.length ≤ o2.cols.length := by
          rw [ho2]
          exact le_trans hk1 (setColFrame_cols_length_le ..)
        have htake : o3.cols.take gdf.cols.length = gdf.cols := by
          rw [ho3, setColFrame_cols_take _ _ _ _ hk2, ho2,
            setColFrame_cols_take _ _ _ _ hk1, ho1,
            setColFrame_cols_take _ _ _ _ hk0, hc0]
          exact List.take_left ..
        have hdrop : ∀ c ∈ o3.cols.drop gdf.cols.length, c ∈ computedColNames := by
          have dlit : ∀ x ∈ (["min", "max", "mean", "count", "std", "percentile_10",
              "percentile_90", "frost_pixels", "p10", "p90"] : List String),
              x ∈ computedColNames := by decide
          have d0 : ∀ c ∈ o0.cols.drop gdf.cols.length, c ∈ computedColNames := by
            intro c hc
            rw [hc0, List.drop_left] at hc
            exact dlit c hc
          have d1 : ∀ c ∈ o1.cols.drop gdf.cols.length, c ∈ computedColNames := by
            rw [ho1]
            exact setColFrame_cols_drop_sub _ _ _ _ hk0 d0 (by decide)
          have d2 : ∀ c ∈ o2.cols.drop gdf.cols.length, c ∈ computedColNames := by
            rw [ho2]
            exact setColFrame_cols_drop_sub _ _ _ _ hk1 d1 (by decide)
          rw [ho3]
          exact setColFrame_cols_drop_sub _ _ _ _ hk2 d2 (by decide)
        refine ⟨rfl, htake, hdrop, hlen3, ?_⟩
        intro i j cn hj hnp hnfp hnfpct
        have hjlt : j < gdf.cols.length := (List.getElem?_eq_some.mp hj).1
        have hj0 : o0.cols[j]? = some cn := by
          rw [hc0, List.getElem?_append_left hjlt]; exact hj
        have hj1 : o1.cols[j]? = some cn := by
          rw [ho1, setColFrame_cols_getq _ _ _ _ (lt_of_lt_of_le hjlt hk0)]; exact hj0
        have hj2 : o2.cols[j]? = some cn := by
          rw [ho2, setColFrame_cols_getq _ _ _ _ (lt_of_lt_of_le hjlt hk1)]; exact hj1
        have step3 : cellAt o3 i j = cellAt o2 i j := by
          rw [ho3]
          exact cellAt_setColFrame _ _ _ hwf2 hv3 i j cn hj2 hnfpct
        have step2 : cellAt o2 i j = cellAt o1 i j := by
          rw [ho2]
          exact cellAt_setColFrame _ _ _ hwf1 (colCellsD_length ..) i j cn hj1 hnfp
        have step1 : cellAt o1 i j = cellAt o0 i j := by
          rw [ho1]
          exact cellAt_setColFrame _ _ _ hwf0 (colCellsD_length ..) i j cn hj0 hnp
        have step0 : cellAt o0 i j = cellAt gdf i j := by
          rw [ho0]
          exact cellAt_concatCols_left _ _ hwf (by rw [hB, dfOfStats_rows_length, hlen]) i j cn hj
        calc cellAt { o3 with geomCol := "geometry" } i j
            = cellAt o3 i j := rfl
          _ = cellAt o2 i j := step3
          _ = cellAt o1 i j := step2
          _ = cellAt o0 i j := step1
          _ = cellAt gdf i j := step0
      · rw [if_neg hg] at h
        exact absurd h (by simp)

theorem assemble_warnings (gdf : GeoFrame) (zs : List ZonalRow) (out : GeoFrame)
    (w : List String) (h : assemble gdf zs = Except.ok (out, w)) : w = [] := by
  simp only [assemble] at h
  split at h
  · split at h
    · exact absurd h (by simp)
    · split at h
      · exact absurd h (by simp)
      · split at h
        · simp only [Except.ok.injEq, Prod.mk.injEq] at h
          exact h.2.symm
        · exact absurd h (by simp)
  · split at h
    · exact absurd h (by simp)
    · split at h
      · exact absurd h (by simp)
      · split at h
        · simp only [Except.ok.injEq, Prod.mk.injEq] at h
          exact h.2.symm
        · exact absurd h (by simp)

theorem compute_ok_spec (env : Env) (gdf out : GeoFrame) (w : List String)
    (hwf : gdf.WF) (h : compute_zonal_stats env gdf = Except.ok (out, w)) :
    w = [] ∧
    out.cols.take gdf.cols.length = gdf.cols ∧
    (∀ c ∈ out.cols.drop gdf.cols.length, c ∈ computedColNames) ∧
    out.rows.length = gdf.rows.length ∧
    (∀ i j : ℕ, ∀ cn : String, gdf.cols[j]? = some cn →
      cn ≠ "pixels" → cn ≠ "frost_pixels" → cn ≠ "frost_pct" →
      cn ≠ (ensure_geometry_column gdf).geomCol →
      cellAt out i j = cellAt gdf i j) := by
  obtain ⟨hp1, hp2, hp3, hp4⟩ := prepared_spec env gdf
  simp only [compute_zonal_stats] at h
  cases hz : zonal_stats env
      (colCellsD (prepared env gdf) (prepared env gdf).geomCol Cell.na) with
  | none =>
    rw [hz] at h
    exact absurd h (by simp)
  | some zs =>
    rw [hz] at h
    simp only at h
    have hzl : zs.length = (prepared env gdf).rows.length := by
      rw [zonal_stats_length env _ zs hz, colCellsD_length]
    obtain ⟨a1, a2, a3, a4, a5⟩ := assemble_ok (prepared env gdf) zs out w (hp3 hwf) hzl h
    have hlc : (prepared env gdf).cols.length = gdf.cols.length := by rw [hp1]
    refine ⟨a1, ?_, ?_, ?_, ?_⟩
    · rw [← hlc, a2]
      exact hp1
    · intro c hc
      apply a3 c
      rw [hlc]
      exact hc
    · rw [a4]
      exact hp2
    · intro i j cn hj hnp hnfp hnfpct hngeom
      have hjp : (prepared env gdf).cols[j]? = some cn := by rw [hp1]; exact hj
      rw [a5 i j cn hjp hnp hnfp hnfpct]
      exact hp4 i j cn hj hngeom

theorem compute_ok_warnings (env : Env) (f out : GeoFrame) (w : List String)
    (h : compute_zonal_stats env f = Except.ok (out, w)) : w = [] := by
  simp only [compute_zonal_stats] at h
  cases hz : zonal_stats env (colCellsD (prepared env f) (prepared env f).geomCol Cell.na) with
  | none =>
    rw [hz] at h
    exact absurd h (by simp)
  | some zs =>
    rw [hz] at h
    simp only at h
    exact assemble_warnings _ _ _ _ h

theorem compute_warnings_nil (env : Env) (f : GeoFrame) :
    warningsOf (compute_zonal_stats env f) = [] := by
  unfold warningsOf
  cases hc : compute_zonal_stats env f with
  | error e => rfl
  | ok p =>
    obtain ⟨out, w⟩ := p
    exact compute_ok_warnings env f out w hc


/-! The claims. -/

/-- C1 (corrected, counterexample): against the claim that one polygon's
sampling failure only degrades that polygon's row while the batch
continues, here is a two-polygon batch whose first polygon samples fine
and whose second polygon's sampling fails, and the whole call raises
`RuntimeError` — no partial result is produced. -/
theorem claim1_counterexample :
    failEnv.sample (Geom.rect 0 0 1 1) = some [1] ∧
    failEnv.sample (Geom.named "bad") = none ∧
    compute_zonal_stats failEnv failGdf = Except.error "Error en zonal_stats" :=
  ⟨rfl, rfl, rfl⟩

/-- C1 (corrected, amended): if sampling fails for any polygon of the
batch, `compute_zonal_stats` raises `RuntimeError` for the whole batch
(app.py lines 70-82 wrap the single library call in one `try`/`except`
that re-raises); no row is degraded and no warning is recorded. -/
theorem claim1_batch_abort (env : Env) (gdf : GeoFrame)
    (h : ∃ c ∈ colCellsD (prepared env gdf) (prepared env gdf).geomCol Cell.na,
      sampleCell env c = none) :
    compute_zonal_stats env gdf = Except.error "Error en zonal_stats" := by
  have hz : zonal_stats env
      (colCellsD (prepared env gdf) (prepared env gdf).geomCol Cell.na) = none := by
    unfold zonal_stats
    rw [mapM_none_of_mem _ _ h]
    rfl
  simp [compute_zonal_stats, hz]

/-- Witness for C1's amended theorem at the concrete failing batch. -/
theorem claim1_witness :
    compute_zonal_stats failEnv failGdf = Except.error "Error en zonal_stats" :=
  claim1_batch_abort failEnv failGdf
    ⟨Cell.geom (Geom.named "bad"), by decide, rfl⟩

/-- C2 (confirmed): for every non-empty sampled sequence, `frost_pixels`
is the number of values strictly below zero and the frost percentage is
computed as `frost_pixels / count * 100` exactly (rationals, no rounding);
and on the 4×4 example raster with a polygon covering the whole grid the
pipeline returns count 16, min -3, max 16, frost_pixels 3 and
frost_pct 18.75. -/
theorem claim2_frost_stats :
    (∀ vals : List ℚ, vals ≠ [] →
      (aggregate vals).frost_pixels = (vals.filter (fun v => decide (v < 0))).length ∧
      frostPctCell (Cell.num ((aggregate vals).count : ℚ))
          (Cell.num ((aggregate vals).frost_pixels : ℚ)) =
        Cell.num (((aggregate vals).frost_pixels : ℚ) / ((aggregate vals).count : ℚ) * 100)) ∧
    (compute_zonal_stats exampleEnv exampleGdf).map (fun r =>
      (colCellsD r.1 "count" Cell.na, colCellsD r.1 "min" Cell.na,
       colCellsD r.1 "max" Cell.na, colCellsD r.1 "frost_pixels" Cell.na,
       colCellsD r.1 "frost_pct" Cell.na)) =
      Except.ok ([Cell.num 16], [Cell.num (-3)], [Cell.num 16], [Cell.num 3],
        [Cell.num 18.75]) := by
  constructor
  · intro vals hv
    refine ⟨rfl, ?_⟩
    have hpos : (0 : ℚ) < ((aggregate vals).count : ℚ) := by
      have h1 : 0 < vals.length := List.length_pos.mpr hv
      exact_mod_cast h1
    simp [frostPctCell, hpos]
  · set_option maxRecDepth 100000 in
    with_unfolding_all rfl

/-- Witness for C2's universal part at a concrete two-value sample. -/
theorem claim2_witness :
    (aggregate [(1 : ℚ), -1]).frost_pixels =
      (([(1 : ℚ), -1]).filter (fun v => decide (v < 0))).length ∧
    frostPctCell (Cell.num ((aggregate [(1 : ℚ), -1]).count : ℚ))
        (Cell.num ((aggregate [(1 : ℚ), -1]).frost_pixels : ℚ)) =
      Cell.num (((aggregate [(1 : ℚ), -1]).frost_pixels : ℚ) /
        ((aggregate [(1 : ℚ), -1]).count : ℚ) * 100) :=
  claim2_frost_stats.1 [1, -1] (by decide)

/-- C3 (confirmed): a polygon with an empty sampled sequence gets the
missing-value marker (which is distinct from a numeric zero) for min, max,
mean, std, p10 and p90, while count, frost_pixels and the derived
frost_pct are zero. -/
theorem claim3_empty_row (vals : List ℚ) (h : vals = []) :
    rowOfZonal (aggregate vals) =
      [Cell.na, Cell.na, Cell.na, Cell.num 0, Cell.na, Cell.na, Cell.na, Cell.num 0] ∧
    Cell.na ≠ Cell.num 0 ∧
    (aggregate vals).frost_pixels = 0 ∧
    frostPctCell (Cell.num ((aggregate vals).count : ℚ))
      (Cell.num ((aggregate vals).frost_pixels : ℚ)) = Cell.num 0 := by
  subst h
  exact ⟨rfl, by decide, rfl, rfl⟩

/-- Witness for C3 at the empty sample. -/
theorem claim3_witness :
    rowOfZonal (aggregate ([] : List ℚ)) =
      [Cell.na, Cell.na, Cell.na, Cell.num 0, Cell.na, Cell.na, Cell.na, Cell.num 0] ∧
    Cell.na ≠ Cell.num 0 ∧
    (aggregate ([] : List ℚ)).frost_pixels = 0 ∧
    frostPctCell (Cell.num ((aggregate ([] : List ℚ)).count : ℚ))
      (Cell.num ((aggregate ([] : List ℚ)).frost_pixels : ℚ)) = Cell.num 0 :=
  claim3_empty_row [] rfl

/-- C4 (confirmed): a vector layer without a declared CRS is first
assigned EPSG:4326; and when the raster has a CRS and reprojection of the
polygon layer succeeds, the layer actually used for sampling is the
reprojected one, carrying the raster's CRS (the raster itself is never
transformed — the embedding reprojects only vector geometries). -/
theorem claim4_reproject (env : Env) (f : GeoFrame) (rc : String) (g : GeoFrame) :
    (f.crs = none → (withDefaultCrs f).crs = some "EPSG:4326") ∧
    (env.rasterCrs = some rc →
      to_crs env (withDefaultCrs (ensure_geometry_column f)) rc = some g →
      prepared env f = g ∧ g.crs = some rc) := by
  constructor
  · intro h
    simp [withDefaultCrs, h]
  · intro hrc hto
    have hg := to_crs_spec env (withDefaultCrs (ensure_geometry_column f)) rc g hto
    refine ⟨?_, hg.2.2.1⟩
    unfold prepared reconcile
    rw [hrc]
    simp [hto]

/-- Witness for C4: a layer without CRS gets EPSG:4326, and a successful
(identity) reprojection makes the sampled layer carry the raster CRS. -/
theorem claim4_witness :
    (withDefaultCrs noCrsGdf).crs = some "EPSG:4326" ∧
    (prepared exampleEnv exampleGdf = exampleGdf ∧
      exampleGdf.crs = some "EPSG:32718") :=
  ⟨(claim4_reproject exampleEnv noCrsGdf "x" exampleGdf).1 rfl,
   (claim4_reproject exampleEnv exampleGdf "EPSG:32718" exampleGdf).2 rfl rfl⟩

/-- C5 (corrected, counterexample): a batch whose reprojection fails —
the computation proceeds on the unmodified geometry and succeeds, but the
claimed warning is never recorded (the warning list is empty). -/
theorem claim5_counterexample :
    to_crs reprojFailEnv (withDefaultCrs (ensure_geometry_column reprojFailGdf))
      "EPSG:32718" = none ∧
    (compute_zonal_stats reprojFailEnv reprojFailGdf).map (fun r => r.2) =
      Except.ok [] ∧
    (compute_zonal_stats reprojFailEnv reprojFailGdf).map
      (fun r => colCellsD r.1 "geometry" Cell.na) =
      Except.ok [Cell.geom (Geom.rect 0 0 1 1)] :=
  ⟨rfl, rfl, rfl⟩

/-- C5 (corrected, amended): when reprojection to the raster CRS fails,
the computation silently proceeds with the unmodified geometry (app.py
line 64: `except Exception: pass`); no warning is recorded on any path,
and the reprojection failure itself never raises. -/
theorem claim5_silent_fallback (env : Env) (f : GeoFrame) (rc : String)
    (h1 : env.rasterCrs = some rc)
    (h2 : to_crs env (withDefaultCrs (ensure_geometry_column f)) rc = none) :
    prepared env f = withDefaultCrs (ensure_geometry_column f) ∧
    warningsOf (compute_zonal_stats env f) = [] := by
  refine ⟨?_, compute_warnings_nil env f⟩
  unfold prepared reconcile
  rw [h1]
  simp [h2]

/-- Witness for C5's amended theorem at the concrete failing
reprojection. -/
theorem claim5_witness :
    prepared reprojFailEnv reprojFailGdf =
      withDefaultCrs (ensure_geometry_column reprojFailGdf) ∧
    warningsOf (compute_zonal_stats reprojFailEnv reprojFailGdf) = [] :=
  claim5_silent_fallback reprojFailEnv reprojFailGdf "EPSG:32718" rfl rfl

/-- C6 (corrected, counterexample): an input table that already has a
column named `mean` — the result table contains two columns named `mean`
(the computed column is appended under its unchanged name, not a
disambiguated one) and the warning list is empty. -/
theorem claim6_counterexample :
    "mean" ∈ collideGdf.cols ∧
    (compute_zonal_stats reprojChangeEnv collideGdf).map
      (fun r => (r.1.cols.count "mean", r.2)) = Except.ok (2, []) :=
  ⟨by decide, rfl⟩

/-- C6 (corrected, amended): on success the original columns keep their
names and positions as a prefix of the result and every appended column
name is one of the computed statistic names — even when it duplicates a
pre-existing name — and no warning is recorded (the derived columns
`pixels`, `frost_pixels` and `frost_pct` overwrite same-named pre-existing
columns in place rather than duplicating them). -/
theorem claim6_append_dup (env : Env) (gdf out : GeoFrame) (w : List String)
    (hwf : gdf.WF) (h : compute_zonal_stats env gdf = Except.ok (out, w)) :
    out.cols.take gdf.cols.length = gdf.cols ∧
    (∀ c ∈ out.cols.drop gdf.cols.length, c ∈ computedColNames) ∧
    w = [] := by
  obtain ⟨h1, h2, h3, _, _⟩ := compute_ok_spec env gdf out w hwf h
  exact ⟨h2, h3, h1⟩

/-- Witness for C6's amended theorem at a concrete batch. -/
theorem claim6_witness :
    emptyOut.cols.take emptyGdf.cols.length = emptyGdf.cols ∧
    (∀ c ∈ emptyOut.cols.drop emptyGdf.cols.length, c ∈ computedColNames) ∧
    ([] : List String) = [] :=
  claim6_append_dup failEnv emptyGdf emptyOut []
    (by intro r hr; simp [emptyGdf] at hr) rfl

/-- C7 (corrected, counterexample): an input with an upper-case attribute
column `DISTRITO` — the result table still contains `DISTRITO`, whose
lower-casing differs from it, so column names are not normalized to
lowercase. -/
theorem claim7_counterexample :
    (compute_zonal_stats reprojChangeEnv upperGdf).map (fun r => r.1.cols) =
      Except.ok ["DISTRITO", "geometry", "min", "max", "mean", "count", "std",
        "percentile_10", "percentile_90", "frost_pixels", "p10", "p90", "pixels",
        "frost_pct"] ∧
    isLowerStr "DISTRITO" = false :=
  ⟨rfl, by decide⟩

/-- C7 (corrected, amended): no case normalization is performed; columns
carried over from the input keep their original case, and only the
computed statistic columns (which the library emits in lowercase) are
guaranteed lowercase: every result column is an input column or its own
lower-casing. -/
theorem claim7_case_mix (env : Env) (gdf out : GeoFrame) (w : List String)
    (hwf : gdf.WF) (h : compute_zonal_stats env gdf = Except.ok (out, w)) :
    ∀ c ∈ out.cols, c ∈ gdf.cols ∨ isLowerStr c = true := by
  obtain ⟨_, h2, h3, _, _⟩ := compute_ok_spec env gdf out w hwf h
  have hlower : ∀ c ∈ computedColNames, isLowerStr c = true := by decide
  intro c hc
  rw [← List.take_append_drop gdf.cols.length out.cols] at hc
  rcases List.mem_append.mp hc with hl | hr
  · rw [h2] at hl
    exact Or.inl hl
  · exact Or.inr (hlower c (h3 c hr))

/-- Witness for C7's amended theorem at a concrete batch and a concrete
result column. -/
theorem claim7_witness :
    "frost_pct" ∈ emptyGdf.cols ∨ isLowerStr "frost_pct" = true :=
  claim7_case_mix failEnv emptyGdf emptyOut []
    (by intro r hr; simp [emptyGdf] at hr) rfl "frost_pct" (by decide)

/-- C8 (confirmed): the source passes `all_touched=False`; under that
policy a raster cell is sampled only when its center lies strictly inside
the polygon, and for two polygons with disjoint interiors (such as
adjacent polygons sharing a boundary edge) no cell is sampled for both. -/
theorem claim8_center_inside :
    allTouchedArg = false ∧
    (∀ (ras : RasterSurface) (g : Geom) (r c : ℕ),
      (r, c) ∈ sampledCells allTouchedArg ras g →
      g.interiorContains (cellCenterX c) (cellCenterY r) = true) ∧
    (∀ (ras : RasterSurface) (A B : Geom),
      (∀ x y : ℚ, ¬(A.interiorContains x y = true ∧ B.interiorContains x y = true)) →
      ∀ r c : ℕ, (r, c) ∈ sampledCells allTouchedArg ras A →
        (r, c) ∉ sampledCells allTouchedArg ras B) := by
  have hmem : ∀ (ras : RasterSurface) (g : Geom) (r c : ℕ),
      (r, c) ∈ sampledCells allTouchedArg ras g →
      g.interiorContains (cellCenterX c) (cellCenterY r) = true := by
    intro ras g r c h
    unfold sampledCells at h
    rw [List.mem_flatMap] at h
    obtain ⟨rrow, _, hin⟩ := h
    rw [List.mem_filterMap] at hin
    obtain ⟨cv, _, heq⟩ := hin
    by_cases hcond :
        includeCell allTouchedArg g rrow.1 cv.1 && keepValue ras.nodata cv.2
    · rw [if_pos hcond] at heq
      obtain ⟨hr, hc⟩ : rrow.1 = r ∧ cv.1 = c := by
        constructor <;> injection heq with h2 <;> [exact congrArg Prod.fst h2;
          exact congrArg Prod.snd h2]
      obtain ⟨hinc, _⟩ := Bool.and_eq_true_iff.mp hcond
      rw [hr, hc] at hinc
      simpa [includeCell, allTouchedArg] using hinc
    · rw [if_neg hcond] at heq
      exact Option.noConfusion heq
  refine ⟨rfl, hmem, ?_⟩
  intro ras A B hAB r c hA hB
  exact hAB (cellCenterX c) (cellCenterY r) ⟨hmem ras A r c hA, hmem ras B r c hB⟩

/-- Witness for C8 at two adjacent rectangles sharing the edge x = 2 on
the example raster: cell (1, 1) is sampled for the left rectangle and is
not sampled for the right one. -/
theorem claim8_witness :
    (1, 1) ∈ sampledCells allTouchedArg exampleRaster (Geom.rect 0 0 2 4) ∧
    (1, 1) ∉ sampledCells allTouchedArg exampleRaster (Geom.rect 2 0 4 4) := by
  refine ⟨by with_unfolding_all decide, claim8_center_inside.2.2 exampleRaster
    (Geom.rect 0 0 2 4) (Geom.rect 2 0 4 4) ?_ 1 1 (by with_unfolding_all decide)⟩
  rintro x y ⟨hA, hB⟩
  simp only [Geom.interiorContains, Bool.and_eq_true, decide_eq_true_eq] at hA hB
  obtain ⟨⟨⟨_, hA2⟩, _⟩, _⟩ := hA
  obtain ⟨⟨⟨hB1, _⟩, _⟩, _⟩ := hB
  linarith

/-- C9 (corrected, counterexample): with a vector CRS differing from the
raster's, the geometry carried into the result row is the reprojected
geometry, not the input geometry — the input attributes survive but the
geometry column is changed by reprojection. -/
theorem claim9_counterexample :
    (compute_zonal_stats reprojChangeEnv attrGdf).map
      (fun r => colCellsD r.1 "geometry" Cell.na) =
      Except.ok [Cell.geom (Geom.rect 0 0 1 1)] ∧
    colCellsD attrGdf "geometry" Cell.na = [Cell.geom (Geom.rect 10 10 20 20)] ∧
    Geom.rect 0 0 1 1 ≠ Geom.rect 10 10 20 20 :=
  ⟨rfl, rfl, by decide⟩

/-- C9 (corrected, amended): on success the result has exactly one row
per input polygon, in input order, and each row carries the input row's
attribute cells unchanged — except the active geometry column (whose
geometries may have been reprojected into the raster's CRS) and any
attribute column named `pixels`, `frost_pixels` or `frost_pct`, which the
derived computations overwrite. -/
theorem claim9_rows_attrs (env : Env) (gdf out : GeoFrame) (w : List String)
    (hwf : gdf.WF) (h : compute_zonal_stats env gdf = Except.ok (out, w)) :
    out.rows.length = gdf.rows.length ∧
    out.cols.take gdf.cols.length = gdf.cols ∧
    (∀ i j : ℕ, ∀ cn : String, gdf.cols[j]? = some cn →
      cn ≠ "pixels" → cn ≠ "frost_pixels" → cn ≠ "frost_pct" →
      cn ≠ (ensure_geometry_column gdf).geomCol →
      cellAt out i j = cellAt gdf i j) := by
  obtain ⟨_, h2, _, h4, h5⟩ := compute_ok_spec env gdf out w hwf h
  exact ⟨h4, h2, h5⟩

/-- Witness for C9's amended theorem: a one-polygon batch where the
attribute cell of the result row equals the input's. -/
theorem claim9_witness :
    oneRowOut.rows.length = oneRowGdf.rows.length ∧
    cellAt oneRowOut 0 0 = cellAt oneRowGdf 0 0 := by
  have h := claim9_rows_attrs failEnv oneRowGdf oneRowOut []
    (by intro r hr; obtain rfl := List.mem_singleton.mp hr; rfl)
    (by with_unfolding_all rfl)
  exact ⟨h.1, h.2.2 0 0 "NOMBRE" rfl (by decide) (by decide) (by decide) (by decide)⟩

/-- C10 (confirmed): `compute_zonal_stats` starts by copying the caller's
GeoDataFrame (app.py line 54) and every subsequent operation acts on the
copy or on frames derived from it, so after the call the caller's object
still has its original columns, rows, CRS and active geometry column. -/
theorem claim10_caller_object (env : Env) (v : GeoFrame) :
    (compute_zonal_stats_caller env v).2 = v ∧
    (compute_zonal_stats_caller env v).2.cols = v.cols ∧
    (compute_zonal_stats_caller env v).2.rows = v.rows ∧
    (compute_zonal_stats_caller env v).2.crs = v.crs ∧
    (compute_zonal_stats_caller env v).2.geomCol = v.geomCol :=
  ⟨rfl, rfl, rfl, rfl, rfl⟩
